import Mathlib

/-!
# Verification of the error-classification and explanation engine

Shallow embedding of the core of `error-solution-ai-buddy`:

* `cli/error-listener.js` (embedded in `setup-combined.ps1`): `ErrorListener`
  with `detectError`, `detectLanguage`, `analyzeError`, `getLocalExplanation`;
* `extension/src/error-detector.ts` (embedded in `setup.ps1`): `ErrorDetector`,
  the TypeScript port of the same engine;
* `backend/src/ai/ollama-service.js`: `AIService.parseResponse`;
* `cli/index.js`: `sanitizeError`.

All of these are driven by JavaScript regular expressions, so the development
starts with a small backtracking regex engine whose semantics mirror
ECMAScript matching: leftmost match, depth-first backtracking with greedy /
lazy quantifier preference, numbered capture groups, positive lookahead,
multiline anchors, and `String.prototype.replace` with a `g` flag.
Quantifier bodies in every source pattern consume at least one character per
iteration, so the engine rejects empty quantifier iterations (exactly the
ECMAScript rule for zero-minimum repetitions) and uses fuel bounded by the
input length to justify termination.
-/

namespace JsRegex

/-- Capture environment: group index ↦ captured characters (none = group did
not participate, JavaScript `undefined`). -/
def Caps := Nat → Option (List Char)

def Caps.empty : Caps := fun _ => none

/-- Abstract syntax for the fragment of ECMAScript regexes used by the
sources.  `star r g`: `g = true` is greedy (`*`), `g = false` lazy (`*?`).
`lineStart`/`lineEnd` are the `m`-flag anchors `^`/`$`; `strEnd` is `$`
without the `m` flag. -/
inductive RE where
  | eps : RE
  | cls : (Char → Bool) → RE
  | seq : RE → RE → RE
  | alt : RE → RE → RE
  | star : RE → Bool → RE
  | group : Nat → RE → RE
  | look : RE → RE
  | lineStart : RE
  | lineEnd : RE
  | strEnd : RE

/-- State passed along the match: previous character (for `^`), remaining
input, captures. -/
structure MSt where
  prev : Option Char
  rest : List Char
  caps : Caps

/-- ECMAScript line terminators (ASCII fragment). -/
def isLineTerm (c : Char) : Bool := c = '\n' || c = '\r'

/-- Continuation type of the matcher. -/
abbrev Cont := Option Char → List Char → Caps → Option MSt

/-- One layer of the backtracking matcher, structurally recursive on the
regex.  `recur` is invoked to continue a quantifier loop after an iteration
that consumed at least one character (the progress gate mirrors the
ECMAScript rule that a zero-minimum repetition stops on an empty
iteration). -/
def mtchStep (recur : RE → Option Char → List Char → Caps → Cont → Option MSt) :
    RE → Option Char → List Char → Caps → Cont → Option MSt
  | .eps, p, s, c, k => k p s c
  | .cls f, _p, s, c, k =>
    match s with
    | [] => none
    | ch :: t => if f ch then k (some ch) t c else none
  | .seq a b, p, s, c, k =>
    mtchStep recur a p s c (fun p2 s2 c2 => mtchStep recur b p2 s2 c2 k)
  | .alt a b, p, s, c, k =>
    (mtchStep recur a p s c k).orElse (fun _ => mtchStep recur b p s c k)
  | .star r g, p, s, c, k =>
    if g then
      (mtchStep recur r p s c (fun p2 s2 c2 =>
        if s2.length < s.length then recur (.star r g) p2 s2 c2 k else none)).orElse
        (fun _ => k p s c)
    else
      (k p s c).orElse (fun _ =>
        mtchStep recur r p s c (fun p2 s2 c2 =>
          if s2.length < s.length then recur (.star r g) p2 s2 c2 k else none))
  | .group i r, p, s, c, k =>
    mtchStep recur r p s c (fun p2 s2 c2 =>
      k p2 s2 (fun j => if j = i then some (s.take (s.length - s2.length)) else c2 j))
  | .look r, p, s, c, k =>
    match mtchStep recur r p s c (fun p2 s2 c2 => some ⟨p2, s2, c2⟩) with
    | some _ => k p s c
    | none => none
  | .lineStart, p, s, c, k =>
    match p with
    | none => k p s c
    | some ch => if isLineTerm ch then k p s c else none
  | .lineEnd, p, s, c, k =>
    match s with
    | [] => k p s c
    | ch :: _ => if isLineTerm ch then k p s c else none
  | .strEnd, p, s, c, k =>
    match s with
    | [] => k p s c
    | _ :: _ => none

/-- Backtracking matcher in continuation-passing style.  The continuation
receives the previous character, the remaining input and the captures; the
first success in ECMAScript preference order wins.  `fuel` bounds the chain
of quantifier iterations; callers pass `rest.length + 1`, which is always
sufficient because every iteration must consume at least one character
(at exhausted fuel a quantifier simply stops iterating). -/
def mtch : Nat → RE → Option Char → List Char → Caps → Cont → Option MSt
  | 0 => mtchStep (fun _ p s c k => k p s c)
  | fuel + 1 => mtchStep (mtch fuel)

/-- A successful search: text before the match, the matched text, the text
after it, and the captures. -/
structure Found where
  pre : List Char
  matched : List Char
  rest : List Char
  caps : Caps

/-- Try to match `r` exactly at the start of `s` (`p` = preceding char). -/
def tryAt (r : RE) (p : Option Char) (s : List Char) (accRev : List Char) :
    Option Found :=
  match mtch (s.length + 1) r p s Caps.empty (fun p2 s2 c2 => some ⟨p2, s2, c2⟩) with
  | some st => some ⟨accRev.reverse, s.take (s.length - st.rest.length), st.rest, st.caps⟩
  | none => none

/-- Leftmost search, as in `String.prototype.match` without the `g` flag:
try each start position from the left. -/
def searchAux (r : RE) : Option Char → List Char → List Char → Option Found
  | p, [], accRev => tryAt r p [] accRev
  | p, ch :: t, accRev =>
    match tryAt r p (ch :: t) accRev with
    | some f => some f
    | none => searchAux r (some ch) t (ch :: accRev)

def search (r : RE) (s : List Char) : Option Found := searchAux r none s []

/-- `regex.test(text)` (also `String.match` converted to a boolean). -/
def rtest (r : RE) (t : String) : Bool := (search r t.data).isSome

/-- `text.match(r)` restricted to capture group `i`: outer `none` = no match,
inner `Option` = whether the group participated. -/
def matchG (r : RE) (t : String) (i : Nat) : Option (Option String) :=
  (search r t.data).map (fun f => (f.caps i).map (fun l => String.mk l))

/-- `String.prototype.replace` with a `g`-flagged regex and a plain
replacement string: repeatedly replace the leftmost match, resuming after
it; on an empty match the scan advances one character (ECMAScript
`lastIndex` rule).  `fuel` bounds the iterations; the wrapper passes
`s.length + 1`, enough because each iteration shortens the unscanned text. -/
def replaceAllAux : Nat → RE → List Char → List Char → List Char
  | 0, _, _, s => s
  | fuel + 1, r, repl, s =>
    match search r s with
    | none => s
    | some f =>
      f.pre ++ repl ++
        (if f.matched.isEmpty then
          match f.rest with
          | [] => []
          | ch :: t => ch :: replaceAllAux fuel r repl t
        else replaceAllAux fuel r repl f.rest)

def jsReplaceAll (r : RE) (repl : String) (s : String) : String :=
  String.mk (replaceAllAux (s.data.length + 1) r repl.data s.data)

/-- `String.prototype.split` by a regex with no capture groups.  Every
pattern it is used with consumes at least one character, so the empty-match
case simply stops (it is unreachable). -/
def splitReAux : Nat → RE → List Char → List (List Char)
  | 0, _, s => [s]
  | fuel + 1, r, s =>
    match search r s with
    | none => [s]
    | some f => if f.matched.isEmpty then [s] else f.pre :: splitReAux fuel r f.rest

def jsSplit (r : RE) (s : String) : List String :=
  (splitReAux (s.data.length + 1) r s.data).map (fun l => String.mk l)

/-! ## Construction helpers mirroring regex syntax -/

/-- Literal character. -/
def chrR (c : Char) : RE := .cls (fun x => x = c)

/-- Case-insensitive literal character (`i` flag). -/
def ichrR (c : Char) : RE := .cls (fun x => x.toLower = c.toLower)

/-- Literal string. -/
def strR (s : String) : RE := s.data.foldr (fun c r => .seq (chrR c) r) .eps

/-- Case-insensitive literal string (`i` flag). -/
def istrR (s : String) : RE := s.data.foldr (fun c r => .seq (ichrR c) r) .eps

/-- Alternation of a non-empty list (`a|b|c`), left-preferring. -/
def altL : List RE → RE
  | [] => .eps
  | [r] => r
  | r :: rs => .alt r (altL rs)

def seqL : List RE → RE
  | [] => .eps
  | [r] => r
  | r :: rs => .seq r (seqL rs)

/-- Greedy `r*`. -/
def starG (r : RE) : RE := .star r true

/-- Greedy `r+`. -/
def plusG (r : RE) : RE := .seq r (.star r true)

/-- Lazy `r+?`. -/
def plusL (r : RE) : RE := .seq r (.star r false)

/-- Greedy `r?`. -/
def optG (r : RE) : RE := .alt r .eps

/-- JavaScript `\s` (ASCII fragment). -/
def isJsSpace (c : Char) : Bool :=
  c = ' ' || c = '\t' || c = '\n' || c = '\r' || c = '\x0b' || c = '\x0c'

/-- JavaScript `\w`, i.e. `[A-Za-z0-9_]`. -/
def isWordChar (c : Char) : Bool := c.isAlphanum || c = '_'

def wordC : RE := .cls isWordChar
def digitC : RE := .cls Char.isDigit
def spaceC : RE := .cls isJsSpace
def notSpaceC : RE := .cls (fun c => !isJsSpace c)
/-- `.`: any character except a line terminator. -/
def dotC : RE := .cls (fun c => !isLineTerm c)
/-- `[\s\S]` and `.` under the `s` flag: any character. -/
def anyC : RE := .cls (fun _ => true)

end JsRegex

namespace JsStr

/-- `hay.includes(needle)`. -/
def containsSub : List Char → List Char → Bool
  | n, h => n.isPrefixOf h ||
      match h with
      | [] => false
      | _ :: t => containsSub n t

def jsIncludes (hay needle : String) : Bool := containsSub needle.data hay.data

/-- `s.trim()` (ASCII whitespace fragment). -/
def jsTrim (s : String) : String :=
  String.mk (((s.data.dropWhile JsRegex.isJsSpace).reverse.dropWhile JsRegex.isJsSpace).reverse)

/-- `parseInt(s, 10)` for the digit strings produced by `(\d+)` captures:
the longest leading run of decimal digits, `none` for `NaN`. -/
def parseIntDec (s : String) : Option Nat :=
  let ds := s.data.takeWhile Char.isDigit
  if ds.isEmpty then none
  else some (ds.foldl (fun n c => n * 10 + (c.toNat - 48)) 0)

/-- JavaScript truthiness of `string | null | undefined`: `none` and the
empty string are falsy. -/
def optFalsy : Option String → Bool
  | none => true
  | some s => s.isEmpty

/-- `x || null` on a `string | undefined` value: an empty capture collapses
to `null`. -/
def orNull : Option String → Option String
  | none => none
  | some s => if s.isEmpty then none else some s

/-- `a || b || null`. -/
def orElseF (a b : Option String) : Option String :=
  match orNull a with
  | some s => some s
  | none => orNull b

end JsStr

namespace Engine

open JsRegex JsStr

/-- The apostrophe character U+0027 (kept out of literals). -/
def apos : Char := Char.ofNat 39

/-- One per-language entry of `ERROR_PATTERNS` (identical in
`cli/error-listener.js` and `extension/src/error-detector.ts`). -/
structure LanguagePatterns where
  patterns : List RE
  stackTraceIndicator : RE
  fileLinePattern : RE

/-- Source pattern `/ENOENT|EACCES|ECONNREFUSED/` (appears verbatim in the
javascript pattern list, in `detectError` and in `detectLanguage`). -/
def sysErrPat : RE := altL [strR "ENOENT", strR "EACCES", strR "ECONNREFUSED"]

/-- Source fragment `\w+(?:\.\w+)*`: a dot-separated identifier. -/
def dottedIdent : RE := .seq (plusG wordC) (starG (.seq (chrR '.') (plusG wordC)))

/-- Character class `[\w.]`. -/
def wordDotC : RE := .cls (fun c => isWordChar c || c = '.')

/-- Character class `[\w.$]`. -/
def wordDotDollarC : RE := .cls (fun c => isWordChar c || c = '.' || c = '$')

/-- Character class `[\w.<>]`. -/
def wordDotAngleC : RE := .cls (fun c => isWordChar c || c = '.' || c = '<' || c = '>')

/-- `ERROR_PATTERNS.javascript`. -/
def jsPatterns : LanguagePatterns where
  patterns := [
    -- /^(\w*Error): (.+)$/m
    seqL [.lineStart, .group 1 (.seq (starG wordC) (strR "Error")), strR ": ",
          .group 2 (plusG dotC), .lineEnd],
    -- /^(\w*Exception): (.+)$/m
    seqL [.lineStart, .group 1 (.seq (starG wordC) (strR "Exception")), strR ": ",
          .group 2 (plusG dotC), .lineEnd],
    -- /SyntaxError: (.+)/
    seqL [strR "SyntaxError: ", .group 1 (plusG dotC)],
    -- /Cannot find module \x27(.+)\x27/
    seqL [strR "Cannot find module ", chrR apos, .group 1 (plusG dotC), chrR apos],
    -- /is not defined/
    strR "is not defined",
    -- /is not a function/
    strR "is not a function",
    -- /Cannot read propert(?:y|ies) of (undefined|null)/
    seqL [strR "Cannot read propert", .alt (strR "y") (strR "ies"), strR " of ",
          .group 1 (.alt (strR "undefined") (strR "null"))],
    -- /ENOENT|EACCES|ECONNREFUSED/
    sysErrPat]
  -- /at\s+(?:\S+\s+)?\(?.*:\d+:\d+\)?/
  stackTraceIndicator := seqL [strR "at", plusG spaceC,
    optG (seqL [plusG notSpaceC, plusG spaceC]), optG (chrR '('), starG dotC,
    chrR ':', plusG digitC, chrR ':', plusG digitC, optG (chrR ')')]
  -- /at\s+.*\(?(.*):(\d+):(\d+)\)?/
  fileLinePattern := seqL [strR "at", plusG spaceC, starG dotC, optG (chrR '('),
    .group 1 (starG dotC), chrR ':', .group 2 (plusG digitC), chrR ':',
    .group 3 (plusG digitC), optG (chrR ')')]

/-- `ERROR_PATTERNS.java`. -/
def javaPatterns : LanguagePatterns where
  patterns := [
    -- /^Exception in thread ".*" (\w+(?:\.\w+)*): (.*)$/m
    seqL [.lineStart, strR "Exception in thread \"", starG dotC, strR "\" ",
          .group 1 dottedIdent, strR ": ", .group 2 (starG dotC), .lineEnd],
    -- /^(\w+(?:\.\w+)*Exception): (.*)$/m
    seqL [.lineStart,
          .group 1 (.seq (plusG wordC) (.seq (starG (.seq (chrR '.') (plusG wordC)))
            (strR "Exception"))),
          strR ": ", .group 2 (starG dotC), .lineEnd],
    -- /^(\w+(?:\.\w+)*Error): (.*)$/m
    seqL [.lineStart,
          .group 1 (.seq (plusG wordC) (.seq (starG (.seq (chrR '.') (plusG wordC)))
            (strR "Error"))),
          strR ": ", .group 2 (starG dotC), .lineEnd],
    -- /^Caused by: (\w+(?:\.\w+)*): (.*)$/m
    seqL [.lineStart, strR "Caused by: ", .group 1 dottedIdent, strR ": ",
          .group 2 (starG dotC), .lineEnd],
    -- /cannot find symbol/
    strR "cannot find symbol",
    -- /error: (.+)/
    seqL [strR "error: ", .group 1 (plusG dotC)],
    -- /incompatible types/
    strR "incompatible types"]
  -- /at\s+[\w.$]+\([\w.]+:\d+\)/
  stackTraceIndicator := seqL [strR "at", plusG spaceC, plusG wordDotDollarC,
    chrR '(', plusG wordDotC, chrR ':', plusG digitC, chrR ')']
  -- /at\s+[\w.$]+\(([\w.]+):(\d+)\)/
  fileLinePattern := seqL [strR "at", plusG spaceC, plusG wordDotDollarC,
    chrR '(', .group 1 (plusG wordDotC), chrR ':', .group 2 (plusG digitC), chrR ')']

/-- Source pattern `/at\s+[\w.<>]+\(.*\)\s+in\s+.*:line\s+\d+/` (used both as
the csharp stack-trace indicator and as a `detectLanguage` indicator). -/
def csStackPat : RE := seqL [strR "at", plusG spaceC, plusG wordDotAngleC,
  chrR '(', starG dotC, chrR ')', plusG spaceC, strR "in", plusG spaceC,
  starG dotC, strR ":line", plusG spaceC, plusG digitC]

/-- `ERROR_PATTERNS.csharp`. -/
def csharpPatterns : LanguagePatterns where
  patterns := [
    -- /^Unhandled exception\. (\w+(?:\.\w+)*): (.*)$/m
    seqL [.lineStart, strR "Unhandled exception. ", .group 1 dottedIdent,
          strR ": ", .group 2 (starG dotC), .lineEnd],
    -- /^(\w+(?:\.\w+)*Exception): (.*)$/m
    seqL [.lineStart,
          .group 1 (.seq (plusG wordC) (.seq (starG (.seq (chrR '.') (plusG wordC)))
            (strR "Exception"))),
          strR ": ", .group 2 (starG dotC), .lineEnd],
    -- /error CS\d+: (.+)/
    seqL [strR "error CS", plusG digitC, strR ": ", .group 1 (plusG dotC)],
    -- /Object reference not set/
    strR "Object reference not set",
    -- /Index was outside the bounds/
    strR "Index was outside the bounds",
    -- /The type or namespace name .* could not be found/
    seqL [strR "The type or namespace name ", starG dotC, strR " could not be found"]]
  stackTraceIndicator := csStackPat
  -- /in\s+(.*):line\s+(\d+)/
  fileLinePattern := seqL [strR "in", plusG spaceC, .group 1 (starG dotC),
    strR ":line", plusG spaceC, .group 2 (plusG digitC)]

/-- `ERROR_PATTERNS` as a record lookup (identical in both engine copies). -/
def ERROR_PATTERNS (lang : String) : Option LanguagePatterns :=
  if lang = "javascript" then some jsPatterns
  else if lang = "java" then some javaPatterns
  else if lang = "csharp" then some csharpPatterns
  else none

/-- The `errorIndicators` array of `detectError` (identical in both engine
copies): `/error/i`, `/exception/i`, `/failed/i`, `/cannot/i`,
`/unable to/i`, `/fatal/i`, `/ENOENT|EACCES|ECONNREFUSED/`,
`/at\s+[\w.]+\(.*:\d+/`. -/
def errorIndicators : List RE :=
  [istrR "error", istrR "exception", istrR "failed", istrR "cannot",
   istrR "unable to", istrR "fatal", sysErrPat,
   seqL [strR "at", plusG spaceC, plusG wordDotC, chrR '(', starG dotC,
         chrR ':', plusG digitC]]

/-- `detectError(text)`: `errorIndicators.some(pattern => pattern.test(text))`. -/
def detectError (text : String) : Bool :=
  errorIndicators.any (fun r => rtest r text)

-- detectLanguage indicators, in source order.

/-- `/at\s+\S+\s+\(.*\.js:\d+:\d+\)/` -/
def jsInd1 : RE := seqL [strR "at", plusG spaceC, plusG notSpaceC, plusG spaceC,
  chrR '(', starG dotC, strR ".js:", plusG digitC, chrR ':', plusG digitC, chrR ')']

/-- `/at\s+.*\.js:\d+:\d+/` -/
def jsInd2 : RE := seqL [strR "at", plusG spaceC, starG dotC, strR ".js:",
  plusG digitC, chrR ':', plusG digitC]

/-- `/node_modules/` -/
def jsInd3 : RE := strR "node_modules"

/-- `/ENOENT|EACCES|ECONNREFUSED/` -/
def jsInd4 : RE := sysErrPat

/-- `/Cannot find module/` -/
def jsInd5 : RE := strR "Cannot find module"

/-- `/at\s+[\w.$]+\([\w.]+\.java:\d+\)/` -/
def javaInd1 : RE := seqL [strR "at", plusG spaceC, plusG wordDotDollarC,
  chrR '(', plusG wordDotC, strR ".java:", plusG digitC, chrR ')']

/-- `/Exception in thread/` -/
def javaInd2 : RE := strR "Exception in thread"

/-- `/\.java:\d+:/` -/
def javaInd3 : RE := seqL [strR ".java:", plusG digitC, chrR ':']

/-- `/at\s+java\./` -/
def javaInd4 : RE := seqL [strR "at", plusG spaceC, strR "java."]

/-- `/at\s+[\w.<>]+\(.*\)\s+in\s+.*:line\s+\d+/` -/
def csInd1 : RE := csStackPat

/-- `/error CS\d+/` -/
def csInd2 : RE := seqL [strR "error CS", plusG digitC]

/-- `/\.cs\(\d+,\d+\)/` -/
def csInd3 : RE := seqL [strR ".cs(", plusG digitC, chrR ',', plusG digitC, chrR ')']

/-- `/Unhandled exception\. System\./` -/
def csInd4 : RE := strR "Unhandled exception. System."

/-- `/at\s+System\./` -/
def csInd5 : RE := seqL [strR "at", plusG spaceC, strR "System."]

/-- `detectLanguage(errorText)` (identical in both engine copies): fixed
priority order javascript, java, csharp; inside a language the indicator
tests are joined with `||`. -/
def detectLanguage (errorText : String) : Option String :=
  if rtest jsInd1 errorText || rtest jsInd2 errorText || rtest jsInd3 errorText ||
      rtest jsInd4 errorText || rtest jsInd5 errorText then
    some "javascript"
  else if rtest javaInd1 errorText || rtest javaInd2 errorText ||
      rtest javaInd3 errorText || rtest javaInd4 errorText then
    some "java"
  else if rtest csInd1 errorText || rtest csInd2 errorText || rtest csInd3 errorText ||
      rtest csInd4 errorText || rtest csInd5 errorText then
    some "csharp"
  else
    none

/-- The pattern-matching loop of `analyzeError` (identical in both engine
copies): first matching pattern sets `errorType = match[1] || null`,
`errorMessage = match[2] || match[1] || null`, `isError = true` and breaks;
if no pattern matches all three keep their initial values. -/
def runPatterns : List RE → String → Option String × Option String × Bool
  | [], _ => (none, none, false)
  | p :: rest, t =>
    match search p t.data with
    | some m =>
      (orNull ((m.caps 1).map (fun l => String.mk l)),
       orElseF ((m.caps 2).map (fun l => String.mk l)) ((m.caps 1).map (fun l => String.mk l)),
       true)
    | none => runPatterns rest t

/-- The shared explanation shape.  The source field `example` is called
`exampleField` here because `example` is a Lean keyword. -/
structure ErrorExplanation where
  what : String
  why : String
  fix : String
  exampleField : Option String
deriving DecidableEq

/-- One language branch of `COMMON_ERRORS`: ordered `error-kind key ↦
ordered (sub-pattern key ↦ explanation)` entries (`Object.entries` order is
insertion order for these keys). -/
abbrev KnowledgeTable := List (String × List (String × ErrorExplanation))

/-- Inner loop of `getLocalExplanation`: first sub-pattern entry whose key is
`"default"` or a substring of the raw text. -/
def findSubPattern : List (String × ErrorExplanation) → String → Option ErrorExplanation
  | [], _ => none
  | (k, e) :: rest, t =>
    if k = "default" || jsIncludes t k then some e else findSubPattern rest t

/-- The trailing `if (subErrors.default)` lookup of `getLocalExplanation`. -/
def findDefault : List (String × ErrorExplanation) → Option ErrorExplanation
  | [] => none
  | (k, e) :: rest => if k = "default" then some e else findDefault rest

/-- Outer loop of `getLocalExplanation` (identical in both engine copies):
a top-level key matches when it is a substring of the raw text or of the
classified error type (`errorText.includes(errorType) ||
analysis.errorType?.includes(errorType)`); on a match, return the first
matching sub-pattern, else the `default` entry if present, else keep
scanning the remaining keys. -/
def scanKnowledge : KnowledgeTable → Option String → String → Option ErrorExplanation
  | [], _, _ => none
  | (key, subs) :: rest, errType, t =>
    if jsIncludes t key ||
        (match errType with
         | some s => jsIncludes s key
         | none => false) then
      match findSubPattern subs t with
      | some e => some e
      | none =>
        match findDefault subs with
        | some e => some e
        | none => scanKnowledge rest errType t
    else scanKnowledge rest errType t

end Engine

/-!
## `ErrorDetector` (extension/src/error-detector.ts, embedded in setup.ps1)

Its `COMMON_ERRORS` table is smaller than the CLI one and its javascript
`TypeError` sub-key is `"Cannot read propert"`; `analyzeError` parses
`line`/`column` with `parseInt(..., 10)`.
-/

namespace ErrorDetector

open JsRegex JsStr Engine

def jsTypeErrorCannotRead : ErrorExplanation where
  what := "You tried to access a property on something that is undefined or null."
  why := "The variable you\x27re accessing doesn\x27t exist or hasn\x27t been assigned a value yet."
  fix := "Add a null check before accessing properties."
  exampleField := some "if (data && data.users) \x7b\n  data.users.map(...)\n\x7d"

def jsTypeErrorNotAFunction : ErrorExplanation where
  what := "You tried to call something as a function, but it\x27s not a function."
  why := "The variable might be undefined, or you imported/accessed the wrong thing."
  fix := "Check that you\x27re calling the right function and it\x27s properly imported."
  exampleField := some "if (typeof myFunc === \x27function\x27) \x7b\n  myFunc();\n\x7d"

def jsReferenceErrorNotDefined : ErrorExplanation where
  what := "You\x27re using a variable that doesn\x27t exist in the current scope."
  why := "Either the variable was never declared, or it\x27s spelled wrong, or it\x27s out of scope."
  fix := "Make sure the variable is declared (const, let, var) before using it."
  exampleField := some "// Wrong:\nconsole.log(myVar);\n\n// Right:\nconst myVar = \x27hello\x27;\nconsole.log(myVar);"

def jsSyntaxErrorDefault : ErrorExplanation where
  what := "Your code has a syntax mistake that JavaScript cannot understand."
  why := "Missing brackets, quotes, semicolons, or other syntax issues."
  fix := "Check the line number mentioned and look for missing or extra characters."
  exampleField := none

def jsEnoentDefault : ErrorExplanation where
  what := "A file or directory you tried to access doesn\x27t exist."
  why := "The path is wrong, or the file was deleted/moved."
  fix := "Check that the file path is correct and the file exists."
  exampleField := none

def javaNpeDefault : ErrorExplanation where
  what := "You tried to use an object that is null (doesn\x27t exist)."
  why := "A variable wasn\x27t initialized, or a method returned null."
  fix := "Add null checks before using objects."
  exampleField := some "if (user != null) \x7b\n    user.getName();\n\x7d"

def javaArrayIndexDefault : ErrorExplanation where
  what := "You tried to access an array index that doesn\x27t exist."
  why := "Arrays are 0-indexed, so an array of size 5 has indices 0-4."
  fix := "Check array length before accessing an index."
  exampleField := some "if (index >= 0 && index < arr.length) \x7b\n    arr[index] = 10;\n\x7d"

def csNullRefDefault : ErrorExplanation where
  what := "You tried to use an object that is null."
  why := "A variable wasn\x27t initialized, or a method returned null."
  fix := "Add null checks or use null-conditional operators."
  exampleField := some "var name = user?.Name;\n// Or:\nif (user != null) \x7b\n    var name = user.Name;\n\x7d"

def csCs0103Default : ErrorExplanation where
  what := "The name you\x27re using doesn\x27t exist in the current context."
  why := "Variable not declared, typo, or missing using statement."
  fix := "Check variable spelling and add any missing using statements."
  exampleField := none

/-- `COMMON_ERRORS.javascript` of error-detector.ts. -/
def javascriptErrors : KnowledgeTable :=
  [("TypeError",
    [("Cannot read propert", jsTypeErrorCannotRead),
     ("is not a function", jsTypeErrorNotAFunction)]),
   ("ReferenceError", [("is not defined", jsReferenceErrorNotDefined)]),
   ("SyntaxError", [("default", jsSyntaxErrorDefault)]),
   ("ENOENT", [("default", jsEnoentDefault)])]

/-- `COMMON_ERRORS.java` of error-detector.ts. -/
def javaErrors : KnowledgeTable :=
  [("NullPointerException", [("default", javaNpeDefault)]),
   ("ArrayIndexOutOfBoundsException", [("default", javaArrayIndexDefault)])]

/-- `COMMON_ERRORS.csharp` of error-detector.ts. -/
def csharpErrors : KnowledgeTable :=
  [("NullReferenceException", [("default", csNullRefDefault)]),
   ("CS0103", [("default", csCs0103Default)])]

/-- `COMMON_ERRORS` as a record lookup. -/
def COMMON_ERRORS (lang : String) : Option KnowledgeTable :=
  if lang = "javascript" then some javascriptErrors
  else if lang = "java" then some javaErrors
  else if lang = "csharp" then some csharpErrors
  else none

/-- `ErrorDetector.getLocalExplanation(analysis, errorText)`: the `analysis`
argument enters only through `analysis.language` and `analysis.errorType`,
which are passed explicitly here. -/
def getLocalExplanation (language errorType : Option String) (errorText : String) :
    Option ErrorExplanation :=
  match language with
  | none => none
  | some l =>
    match COMMON_ERRORS l with
    | none => none
    | some tbl => scanKnowledge tbl errorType errorText

/-- The result record of `ErrorDetector.analyzeError`.  `line` and `column`
are numbers (`parseInt`); `none` stands for `null`/`undefined` (and for the
unreachable `NaN`, which cannot arise from a `(\d+)` capture). -/
structure ErrorAnalysis where
  isError : Bool
  language : Option String
  errorType : Option String
  errorMessage : Option String
  file : Option String
  line : Option Nat
  column : Option Nat
  localExplanation : Option ErrorExplanation
deriving DecidableEq

/-- `ErrorDetector.analyzeError(errorText)`. -/
def analyzeError (errorText : String) : ErrorAnalysis :=
  match Engine.detectLanguage errorText with
  | none =>
    -- if (!analysis.language) { analysis.isError = detectError; language = "unknown"; return }
    { isError := Engine.detectError errorText, language := some "unknown",
      errorType := none, errorMessage := none, file := none, line := none,
      column := none, localExplanation := none }
  | some lang =>
    match Engine.ERROR_PATTERNS lang with
    | none =>
      -- if (!langPatterns) { analysis.isError = detectError; return } (dead branch)
      { isError := Engine.detectError errorText, language := some lang,
        errorType := none, errorMessage := none, file := none, line := none,
        column := none, localExplanation := none }
    | some lp =>
      let rp := Engine.runPatterns lp.patterns errorText
      let fileM := search lp.fileLinePattern errorText.data
      { isError := rp.2.2,
        language := some lang,
        errorType := rp.1,
        errorMessage := rp.2.1,
        -- analysis.file = fileMatch[1]
        file := fileM.bind (fun m => (m.caps 1).map (fun l => String.mk l)),
        -- analysis.line = parseInt(fileMatch[2], 10)
        line := fileM.bind (fun m =>
          ((m.caps 2).map (fun l => String.mk l)).bind parseIntDec),
        -- analysis.column = fileMatch[3] ? parseInt(fileMatch[3], 10) : null
        column := fileM.bind (fun m =>
          match (m.caps 3).map (fun l => String.mk l) with
          | some s => if s.isEmpty then none else parseIntDec s
          | none => none),
        localExplanation := getLocalExplanation (some lang) rp.1 errorText }

end ErrorDetector

/-!
## `ErrorListener` (cli/error-listener.js, embedded in setup-combined.ps1)

Same pattern tables and detection code as `ErrorDetector`, but a larger
`COMMON_ERRORS` table (javascript `ECONNREFUSED`, java
`ClassNotFoundException` and `cannot find symbol`, csharp
`IndexOutOfRangeException` and `CS0246`), the javascript `TypeError` sub-key
`"Cannot read property"` (with a final `y`), and `analyzeError` assigns
`line`/`column` as raw captured strings without `parseInt`.
-/

namespace ErrorListener

open JsRegex JsStr Engine

def jsTypeErrorCannotRead : ErrorExplanation where
  what := "You tried to access a property on something that is undefined or null."
  why := "The variable you\x27re accessing doesn\x27t exist or hasn\x27t been assigned a value yet."
  fix := "Add a null check before accessing properties."
  exampleField := some "// Instead of: data.users.map(...)\n// Do this:\nif (data && data.users) \x7b\n  data.users.map(...)\n\x7d"

def jsTypeErrorNotAFunction : ErrorExplanation where
  what := "You tried to call something as a function, but it\x27s not a function."
  why := "The variable might be undefined, or you imported/accessed the wrong thing."
  fix := "Check that you\x27re calling the right function and it\x27s properly imported."
  exampleField := some "// Check if it\x27s a function first:\nif (typeof myFunc === \x27function\x27) \x7b\n  myFunc();\n\x7d"

def jsReferenceErrorNotDefined : ErrorExplanation where
  what := "You\x27re using a variable that doesn\x27t exist in the current scope."
  why := "Either the variable was never declared, or it\x27s spelled wrong, or it\x27s out of scope."
  fix := "Make sure the variable is declared (const, let, var) before using it."
  exampleField := some "// Wrong:\nconsole.log(myVar);\n\n// Right:\nconst myVar = \x27hello\x27;\nconsole.log(myVar);"

def jsSyntaxErrorDefault : ErrorExplanation where
  what := "Your code has a syntax mistake that JavaScript cannot understand."
  why := "Missing brackets, quotes, semicolons, or other syntax issues."
  fix := "Check the line number mentioned and look for missing or extra characters."
  exampleField := some "// Common issues:\n// - Missing closing bracket: \x7b or \x7d\n// - Missing closing parenthesis: ( or )\n// - Missing quotes: \" or \x27\n// - Extra/missing comma in arrays/objects"

def jsEnoentDefault : ErrorExplanation where
  what := "A file or directory you tried to access doesn\x27t exist."
  why := "The path is wrong, or the file was deleted/moved."
  fix := "Check that the file path is correct and the file exists."
  exampleField := some "// Check if file exists first:\nconst fs = require(\x27fs\x27);\nif (fs.existsSync(\x27./myfile.txt\x27)) \x7b\n  // read file\n\x7d"

def jsEconnrefusedDefault : ErrorExplanation where
  what := "Your code tried to connect to a server that refused the connection."
  why := "The server might not be running, wrong port, or firewall blocking."
  fix := "Make sure the server is running and the port/host are correct."
  exampleField := some "// Common checks:\n// 1. Is the database/server running?\n// 2. Is the port correct? (e.g., 3000, 5432)\n// 3. Is it localhost or 127.0.0.1?"

def javaNpeDefault : ErrorExplanation where
  what := "You tried to use an object that is null (doesn\x27t exist)."
  why := "A variable wasn\x27t initialized, or a method returned null."
  fix := "Add null checks before using objects."
  exampleField := some "// Instead of: user.getName()\n// Do this:\nif (user != null) \x7b\n    user.getName();\n\x7d\n\n// Or use Optional:\nOptional.ofNullable(user).map(User::getName);"

def javaArrayIndexDefault : ErrorExplanation where
  what := "You tried to access an array index that doesn\x27t exist."
  why := "Arrays are 0-indexed, so an array of size 5 has indices 0-4."
  fix := "Check array length before accessing an index."
  exampleField := some "// Wrong: accessing index 5 in array of size 5\nint[] arr = new int[5];\narr[5] = 10; // Error! Valid indices are 0-4\n\n// Right:\nif (index >= 0 && index < arr.length) \x7b\n    arr[index] = 10;\n\x7d"

def javaClassNotFoundDefault : ErrorExplanation where
  what := "Java cannot find a class you\x27re trying to use."
  why := "The class isn\x27t in your classpath, or the name is misspelled."
  fix := "Check your dependencies (pom.xml/build.gradle) and class name."
  exampleField := some "// Check:\n// 1. Is the dependency in pom.xml?\n// 2. Did you run \x27mvn install\x27?\n// 3. Is the class name spelled correctly?\n// 4. Is the import statement correct?"

def javaCannotFindSymbolDefault : ErrorExplanation where
  what := "Java compiler cannot find a variable, method, or class you\x27re using."
  why := "Typo in name, missing import, or wrong scope."
  fix := "Check spelling and make sure imports are correct."
  exampleField := some "// Common causes:\n// 1. Typo: myVarible instead of myVariable\n// 2. Missing import statement\n// 3. Variable declared in different scope\n// 4. Method doesn\x27t exist in that class"

def csNullRefDefault : ErrorExplanation where
  what := "You tried to use an object that is null."
  why := "A variable wasn\x27t initialized, or a method returned null."
  fix := "Add null checks or use null-conditional operators."
  exampleField := some "// Instead of: user.Name\n// Use null-conditional:\nvar name = user?.Name;\n\n// Or null check:\nif (user != null)\n\x7b\n    var name = user.Name;\n\x7d"

def csIndexOutOfRangeDefault : ErrorExplanation where
  what := "You tried to access an array/list index that doesn\x27t exist."
  why := "The index is negative or greater than the collection size."
  fix := "Check collection length before accessing an index."
  exampleField := some "// Wrong:\nvar items = new int[5];\nvar x = items[5]; // Error!\n\n// Right:\nif (index >= 0 && index < items.Length)\n\x7b\n    var x = items[index];\n\x7d"

def csCs0103Default : ErrorExplanation where
  what := "The name you\x27re using doesn\x27t exist in the current context."
  why := "Variable not declared, typo, or missing using statement."
  fix := "Check variable spelling and add any missing using statements."
  exampleField := some "// Did you forget to add:\nusing System.Linq;\nusing YourNamespace;\n\n// Or declare the variable:\nvar myVariable = \"value\";"

def csCs0246Default : ErrorExplanation where
  what := "C# cannot find a type or namespace you\x27re trying to use."
  why := "Missing using statement, missing NuGet package, or typo."
  fix := "Add the using statement or install the required NuGet package."
  exampleField := some "// Add using statement:\nusing Newtonsoft.Json;\n\n// Or install package:\n// dotnet add package Newtonsoft.Json"

/-- `COMMON_ERRORS.javascript` of error-listener.js. -/
def javascriptErrors : KnowledgeTable :=
  [("TypeError",
    [("Cannot read property", jsTypeErrorCannotRead),
     ("is not a function", jsTypeErrorNotAFunction)]),
   ("ReferenceError", [("is not defined", jsReferenceErrorNotDefined)]),
   ("SyntaxError", [("default", jsSyntaxErrorDefault)]),
   ("ENOENT", [("default", jsEnoentDefault)]),
   ("ECONNREFUSED", [("default", jsEconnrefusedDefault)])]

/-- `COMMON_ERRORS.java` of error-listener.js. -/
def javaErrors : KnowledgeTable :=
  [("NullPointerException", [("default", javaNpeDefault)]),
   ("ArrayIndexOutOfBoundsException", [("default", javaArrayIndexDefault)]),
   ("ClassNotFoundException", [("default", javaClassNotFoundDefault)]),
   ("cannot find symbol", [("default", javaCannotFindSymbolDefault)])]

/-- `COMMON_ERRORS.csharp` of error-listener.js. -/
def csharpErrors : KnowledgeTable :=
  [("NullReferenceException", [("default", csNullRefDefault)]),
   ("IndexOutOfRangeException", [("default", csIndexOutOfRangeDefault)]),
   ("CS0103", [("default", csCs0103Default)]),
   ("CS0246", [("default", csCs0246Default)])]

/-- `COMMON_ERRORS` (`this.explanations`) as a record lookup. -/
def COMMON_ERRORS (lang : String) : Option KnowledgeTable :=
  if lang = "javascript" then some javascriptErrors
  else if lang = "java" then some javaErrors
  else if lang = "csharp" then some csharpErrors
  else none

/-- `ErrorListener.getLocalExplanation(analysis, errorText)`. -/
def getLocalExplanation (language errorType : Option String) (errorText : String) :
    Option ErrorExplanation :=
  match language with
  | none => none
  | some l =>
    match COMMON_ERRORS l with
    | none => none
    | some tbl => scanKnowledge tbl errorType errorText

/-- The result record of `ErrorListener.analyzeError`.  Unlike the detector,
`line` and `column` are the raw captured strings. -/
structure ErrorAnalysis where
  isError : Bool
  language : Option String
  errorType : Option String
  errorMessage : Option String
  file : Option String
  line : Option String
  column : Option String
  localExplanation : Option ErrorExplanation
deriving DecidableEq

/-- `ErrorListener.analyzeError(errorText)`.  The listener has no
`if (!langPatterns)` guard: indexing `this.patterns` with a language that
has no table would fault in JavaScript, hence the `Option` result (`none` =
that unreachable fault). -/
def analyzeError (errorText : String) : Option ErrorAnalysis :=
  match Engine.detectLanguage errorText with
  | none =>
    some { isError := Engine.detectError errorText, language := some "unknown",
           errorType := none, errorMessage := none, file := none, line := none,
           column := none, localExplanation := none }
  | some lang =>
    match Engine.ERROR_PATTERNS lang with
    | none => none
    | some lp =>
      let rp := Engine.runPatterns lp.patterns errorText
      let fileM := search lp.fileLinePattern errorText.data
      some { isError := rp.2.2,
             language := some lang,
             errorType := rp.1,
             errorMessage := rp.2.1,
             -- analysis.file = fileMatch[1]
             file := fileM.bind (fun m => (m.caps 1).map (fun l => String.mk l)),
             -- analysis.line = fileMatch[2]
             line := fileM.bind (fun m => (m.caps 2).map (fun l => String.mk l)),
             -- analysis.column = fileMatch[3] || null
             column := fileM.bind (fun m => orNull ((m.caps 3).map (fun l => String.mk l))),
             localExplanation := getLocalExplanation (some lang) rp.1 errorText }

end ErrorListener

/-!
## `AIService.parseResponse` (backend/src/ai/ollama-service.js)
-/

namespace AIService

open JsRegex JsStr

/-- Source pattern `/WHAT:\s*(.+?)(?=WHY:|FIX:|EXAMPLE:|$)/is`. -/
def whatRe : RE := seqL [istrR "WHAT:", starG spaceC, .group 1 (plusL anyC),
  .look (altL [istrR "WHY:", istrR "FIX:", istrR "EXAMPLE:", .strEnd])]

/-- Source pattern `/WHY:\s*(.+?)(?=WHAT:|FIX:|EXAMPLE:|$)/is`. -/
def whyRe : RE := seqL [istrR "WHY:", starG spaceC, .group 1 (plusL anyC),
  .look (altL [istrR "WHAT:", istrR "FIX:", istrR "EXAMPLE:", .strEnd])]

/-- Source pattern `/FIX:\s*(.+?)(?=WHAT:|WHY:|EXAMPLE:|$)/is`. -/
def fixRe : RE := seqL [istrR "FIX:", starG spaceC, .group 1 (plusL anyC),
  .look (altL [istrR "WHAT:", istrR "WHY:", istrR "EXAMPLE:", .strEnd])]

/-- Source pattern `/EXAMPLE:\s*(.+?)(?=WHAT:|WHY:|FIX:|$)/is`. -/
def exampleRe : RE := seqL [istrR "EXAMPLE:", starG spaceC, .group 1 (plusL anyC),
  .look (altL [istrR "WHAT:", istrR "WHY:", istrR "FIX:", .strEnd])]

/-- Sentence separator `/[.!]\s+/` used by the fallback split. -/
def sentenceSplitRe : RE := .seq (.cls (fun c => c = '.' || c = '!')) (plusG spaceC)

/-- Code-fence pattern (three backticks, optional language tag, lazy body,
three backticks): the source literal with `[\w]*`, `\n?` and `([\s\S]+?)`. -/
def codeRe : RE := seqL [strR "```", starG wordC, optG (chrR '\n'),
  .group 1 (plusL anyC), strR "```"]

/-- `response.match(whatRe)`, group 1 (which always participates when the
pattern matches). -/
def whatMatch (response : String) : Option String :=
  (search whatRe response.data).bind (fun f => (f.caps 1).map (fun l => String.mk l))

def whyMatch (response : String) : Option String :=
  (search whyRe response.data).bind (fun f => (f.caps 1).map (fun l => String.mk l))

def fixMatch (response : String) : Option String :=
  (search fixRe response.data).bind (fun f => (f.caps 1).map (fun l => String.mk l))

def exampleMatch (response : String) : Option String :=
  (search exampleRe response.data).bind (fun f => (f.caps 1).map (fun l => String.mk l))

def codeMatch (response : String) : Option String :=
  (search codeRe response.data).bind (fun f => (f.caps 1).map (fun l => String.mk l))

/-- `response.split(/[.!]\s+/).filter(s => s.trim())`. -/
def sentencesOf (response : String) : List String :=
  (jsSplit sentenceSplitRe response).filter (fun s => !(jsTrim s).isEmpty)

/-- The result shape of `parseResponse`.  The source field `example` is
`exampleField` here because `example` is a Lean keyword. -/
structure ParsedExplanation where
  what : Option String
  why : Option String
  fix : Option String
  exampleField : Option String
  raw : String
deriving DecidableEq

/-- `AIService.parseResponse(response)`: marker extraction, then the
sentence-split fallback when `what`, `why` and `fix` are all falsy, then the
code-fence fallback when `example` is falsy. -/
def parseResponse (response : String) : ParsedExplanation :=
  let r0 : ParsedExplanation :=
    { what := (whatMatch response).map jsTrim,
      why := (whyMatch response).map jsTrim,
      fix := (fixMatch response).map jsTrim,
      exampleField := (exampleMatch response).map jsTrim,
      raw := response }
  let r1 :=
    if optFalsy r0.what && optFalsy r0.why && optFalsy r0.fix then
      let sentences := sentencesOf response
      let ra :=
        match sentences.head? with
        | some s1 => { r0 with what := some (jsTrim s1 ++ ".") }
        | none => r0
      let rb :=
        match sentences[1]? with
        | some s2 => { ra with why := some (jsTrim s2 ++ ".") }
        | none => ra
      if 3 ≤ sentences.length then
        { rb with fix := some (jsTrim (String.intercalate ". " (sentences.drop 2))) }
      else rb
    else r0
  if optFalsy r1.exampleField then
    match codeMatch response with
    | some c => { r1 with exampleField := some (jsTrim c) }
    | none => r1
  else r1

end AIService

/-!
## `sanitizeError` (cli/index.js)
-/

namespace CLI

open JsRegex

/-- `CONFIG.maxErrorLength`. -/
def maxErrorLength : Nat := 2000

/-- Windows path segment class `[^\\/:*?"<>|\r\n]`. -/
def winSegC : RE := .cls (fun c =>
  !(c = '\\' || c = '/' || c = ':' || c = '*' || c = '?' || c = '"' ||
    c = '<' || c = '>' || c = '|' || c = '\r' || c = '\n'))

/-- Source pattern for Windows absolute paths (flag `g`): letter, colon,
backslash, then any number of `segment\` groups. -/
def winPathRe : RE := seqL [.cls (fun c => c.isAlpha), chrR ':', chrR '\\',
  starG (.seq (plusG winSegC) (chrR '\\'))]

/-- Source pattern `/\/(?:home|Users|var|usr|opt)\/[^\s:]+/g`. -/
def unixPathRe : RE := seqL [chrR '/',
  altL [strR "home", strR "Users", strR "var", strR "usr", strR "opt"],
  chrR '/', plusG (.cls (fun c => !(isJsSpace c || c = ':')))]

/-- Quote class used by the secret pattern (apostrophe U+0027 or `"`). -/
def quoteC : RE := .cls (fun c => c = Char.ofNat 39 || c = '"')

/-- Source secret pattern (flags `gi`): a key name
(`api[_-]?key|secret|password|token`), optional spaces, `:` or `=`, optional
spaces, an optionally quoted run of non-quote non-space characters. -/
def secretRe : RE := seqL [
  altL [seqL [istrR "api", optG (.cls (fun c => c = '_' || c = '-')), istrR "key"],
        istrR "secret", istrR "password", istrR "token"],
  starG spaceC, .cls (fun c => c = ':' || c = '='), starG spaceC,
  optG quoteC,
  plusG (.cls (fun c => !(c = Char.ofNat 39 || c = '"' || isJsSpace c))),
  optG quoteC]

/-- The three substitution steps of `sanitizeError`, in source order:
Windows paths, Unix paths, secrets. -/
def substituteAll (t : String) : String :=
  jsReplaceAll secretRe "[REDACTED]"
    (jsReplaceAll unixPathRe "[path]"
      (jsReplaceAll winPathRe "[path]\\" t))

/-- `sanitizeError(errorText)`: the three global replacements, then
truncation (`substring(0, CONFIG.maxErrorLength)`, taken at the character
level — identical for the ASCII inputs considered) with an appended
marker. -/
def sanitizeError (errorText : String) : String :=
  let s3 := substituteAll errorText
  if maxErrorLength < s3.length then
    String.mk (s3.data.take maxErrorLength) ++ "\n... (truncated)"
  else s3

end CLI

/-!
## Spec-side definitions

These definitions follow the wording of the claims (not the source); the
theorems below compare them with the source embeddings.
-/

namespace SpecModel

open JsRegex JsStr Engine

/-- The ordered language table described by C2: javascript, then java, then
csharp, each with its ordered indicator list (the same regex constants the
source tests). -/
def languageChecks : List (String × List RE) :=
  [("javascript", [jsInd1, jsInd2, jsInd3, jsInd4, jsInd5]),
   ("java", [javaInd1, javaInd2, javaInd3, javaInd4]),
   ("csharp", [csInd1, csInd2, csInd3, csInd4, csInd5])]

/-- Language detection as C2 words it: the first language in priority order
for which any single indicator matches; `none` when no indicator of any
language matches. -/
def detectLanguageSpec (t : String) : Option String :=
  languageChecks.findSome? (fun lc => if lc.2.any (fun r => rtest r t) then some lc.1 else none)

/-- The message rule as C1 states it: capture group 2 of the matched entry,
falling back to group 1 only when group 2 is absent. -/
def claimMessage (g1 g2 : Option String) : Option String :=
  match g2 with
  | some s => some s
  | none => g1

/-- Knowledge scanning as C3 states it: commit to the first matching
top-level key — return the first holding sub-pattern, else that level's
default, and `none` if the first matching key yields neither. -/
def scanKnowledgeFirstKey : KnowledgeTable → Option String → String → Option ErrorExplanation
  | [], _, _ => none
  | (key, subs) :: rest, errType, t =>
    if jsIncludes t key ||
        (match errType with
         | some s => jsIncludes s key
         | none => false) then
      match findSubPattern subs t with
      | some e => some e
      | none => findDefault subs
    else scanKnowledgeFirstKey rest errType t

/-- Knowledge scanning as amended: within a matching key return the first
holding sub-pattern (a `default` key always holds); when a matching key
yields nothing, continue with the later keys. -/
def scanKnowledgeCont : KnowledgeTable → Option String → String → Option ErrorExplanation
  | [], _, _ => none
  | (key, subs) :: rest, errType, t =>
    if jsIncludes t key ||
        (match errType with
         | some s => jsIncludes s key
         | none => false) then
      match findSubPattern subs t with
      | some e => some e
      | none => scanKnowledgeCont rest errType t
    else scanKnowledgeCont rest errType t

/-- C3-amended resolution for the detector: language lookup in the
detector's table, then the amended scan. -/
def detectorResolveAmended (language errorType : Option String) (t : String) :
    Option ErrorExplanation :=
  match language with
  | none => none
  | some l =>
    match ErrorDetector.COMMON_ERRORS l with
    | none => none
    | some tbl => scanKnowledgeCont tbl errorType t

/-- C3-amended resolution for the listener. -/
def listenerResolveAmended (language errorType : Option String) (t : String) :
    Option ErrorExplanation :=
  match language with
  | none => none
  | some l =>
    match ErrorListener.COMMON_ERRORS l with
    | none => none
    | some tbl => scanKnowledgeCont tbl errorType t

end SpecModel

/-!
## Concrete inputs used by the counterexamples and scenarios
-/

/-- Counterexample input for C1: java entry 0 matches with capture group 2
participating but empty (`(.*)$` before the end of the line). -/
def c1Input : String := "Exception in thread \"main\" Foo: "

/-- Filler that no sanitizer pattern can match: 1994 dashes. -/
def fillerL : List Char := List.replicate 1994 '-'

/-- Counterexample input for C6: filler up to 6 characters short of the
truncation limit, then a secret key whose value is an apostrophe-quoted
space.  The pattern does not match (the quoted value contains whitespace,
which the value class excludes), but the truncation cuts right after
`token:` and the appended marker then completes a match. -/
def c6Input : String := String.mk (fillerL ++ "token:\x27 \x27".data)

/-- `sanitizeError c6Input`: substitutions change nothing, truncation keeps
`token:` and appends the marker. -/
def c6Once : String := String.mk (fillerL ++ "token:\n... (truncated)".data)

/-- `sanitizeError c6Once`: the secret pattern now matches
`token:` + newline + `...` (`\s*` crosses the newline, the dots are a valid
value), is replaced, and truncation fires again. -/
def c6Twice : String := String.mk (fillerL ++ "[REDAC\n... (truncated)".data)

/-- The C8 scenario input: a JavaScript `TypeError` with a stack-frame line
carrying file, line and column. -/
def c8Input : String :=
  "TypeError: Cannot read properties of undefined (reading \x27map\x27)\n    at app.js:12:5"

/-!
## Helper lemmas
-/

namespace Engine

open JsRegex JsStr

/-- If the inner sub-pattern loop found nothing, the sub-pattern list has no
`"default"` entry (the loop would have returned it), so the trailing
`if (subErrors.default)` lookup is dead code. -/
theorem findDefault_eq_none_of_findSubPattern_none
    (subs : List (String × ErrorExplanation)) (t : String)
    (h : findSubPattern subs t = none) : findDefault subs = none := by
  induction subs with
  | nil => rfl
  | cons kv rest ih =>
    obtain ⟨k, e⟩ := kv
    unfold findSubPattern at h
    unfold findDefault
    split at h
    · simp at h
    · rename_i hcond
      have hk : ¬(k = "default") := by
        intro hk
        exact hcond (by simp [hk])
      simp only [hk, if_false]
      exact ih h

/-- The code's knowledge scan equals the amended scan: the trailing default
lookup never fires. -/
theorem scanKnowledge_eq_scanKnowledgeCont
    (tbl : KnowledgeTable) (errType : Option String) (t : String) :
    scanKnowledge tbl errType t = SpecModel.scanKnowledgeCont tbl errType t := by
  induction tbl with
  | nil => rfl
  | cons kv rest ih =>
    obtain ⟨key, subs⟩ := kv
    unfold scanKnowledge SpecModel.scanKnowledgeCont
    split
    · cases hs : findSubPattern subs t with
      | some e => rfl
      | none =>
        rw [findDefault_eq_none_of_findSubPattern_none subs t hs]
        exact ih
    · exact ih

/-- First-match-wins for the classification loop: when entry `i` matches and
no earlier entry does, the loop reports entry `i`'s groups. -/
theorem runPatterns_eq_of_first_match
    (ps : List RE) (t : String) (i : Nat) (pe : RE) (g1 g2 : Option String)
    (hskip : ∀ p ∈ ps.take i, (search p t.data).isNone = true)
    (hit : ps[i]? = some pe)
    (hm1 : matchG pe t 1 = some g1)
    (hm2 : matchG pe t 2 = some g2) :
    runPatterns ps t = (orNull g1, orElseF g2 g1, true) := by
  induction ps generalizing i with
  | nil => simp at hit
  | cons p rest ih =>
    cases i with
    | zero =>
      obtain rfl : p = pe := by simpa using hit
      unfold matchG at hm1 hm2
      cases hs : search p t.data with
      | none => rw [hs] at hm1; simp at hm1
      | some f =>
        rw [hs] at hm1 hm2
        simp only [Option.map_some', Option.some.injEq] at hm1 hm2
        unfold runPatterns
        rw [hs]
        dsimp only
        rw [hm1, hm2]
    | succ n =>
      have hp : (search p t.data).isNone = true := by
        apply hskip
        simp [List.take_succ_cons]
      have hpn : search p t.data = none := Option.isNone_iff_eq_none.mp hp
      unfold runPatterns
      rw [hpn]
      rw [List.getElem?_cons_succ] at hit
      refine ih n (fun q hq => hskip q ?_) hit
      simp only [List.take_succ_cons, List.mem_cons]
      exact Or.inr hq

/-- `detectLanguage` only ever reports one of the three configured
languages. -/
theorem detectLanguage_mem (s lang : String) (h : detectLanguage s = some lang) :
    lang = "javascript" ∨ lang = "java" ∨ lang = "csharp" := by
  unfold detectLanguage at h
  split at h
  · simp at h; exact Or.inl h.symm
  · split at h
    · simp at h; exact Or.inr (Or.inl h.symm)
    · split at h
      · simp at h; exact Or.inr (Or.inr h.symm)
      · simp at h

end Engine

/-!
## Claim theorems
-/

/-- **C1 (counterexample).** At `c1Input` the first java pattern matches with
group 1 = "Foo" and group 2 = "" (present but empty); `analyzeError` reports
`errorMessage = "Foo"`, not group 2 as the claim ("falling back to group 1
only when group 2 is absent") prescribes. -/
theorem c1_counterexample :
    Engine.detectLanguage c1Input = some "java" ∧
    JsRegex.matchG (Engine.javaPatterns.patterns.headD JsRegex.RE.eps) c1Input 1
      = some (some "Foo") ∧
    JsRegex.matchG (Engine.javaPatterns.patterns.headD JsRegex.RE.eps) c1Input 2
      = some (some "") ∧
    (ErrorDetector.analyzeError c1Input).errorMessage = some "Foo" ∧
    (ErrorDetector.analyzeError c1Input).errorMessage
      ≠ SpecModel.claimMessage (some "Foo") (some "") := by
  decide

/-- **C1 (amended).** First-match-wins classification: for every language
table and input text, if the text matches pattern entry `i` (with groups
`g1`, `g2`) and no entry before `i`, then both `analyzeError`
implementations set `errorType = match[1] || null` (group 1, unset when
absent or empty) and `errorMessage = match[2] || match[1] || null` (group 2,
falling back to group 1 when group 2 is absent or captured the empty
string), consulting no later entry. -/
theorem c1_first_match_classification
    (lang : String) (lp : Engine.LanguagePatterns) (t : String) (i : Nat)
    (pe : JsRegex.RE) (g1 g2 : Option String)
    (hdet : Engine.detectLanguage t = some lang)
    (htbl : Engine.ERROR_PATTERNS lang = some lp)
    (hskip : ∀ p ∈ lp.patterns.take i, (JsRegex.search p t.data).isNone = true)
    (hit : lp.patterns[i]? = some pe)
    (hm1 : JsRegex.matchG pe t 1 = some g1)
    (hm2 : JsRegex.matchG pe t 2 = some g2) :
    (ErrorDetector.analyzeError t).errorType = JsStr.orNull g1 ∧
    (ErrorDetector.analyzeError t).errorMessage = JsStr.orElseF g2 g1 ∧
    (ErrorDetector.analyzeError t).isError = true ∧
    (ErrorListener.analyzeError t).map (fun a => a.errorType) = some (JsStr.orNull g1) ∧
    (ErrorListener.analyzeError t).map (fun a => a.errorMessage) = some (JsStr.orElseF g2 g1) ∧
    (ErrorListener.analyzeError t).map (fun a => a.isError) = some true := by
  have hrun := Engine.runPatterns_eq_of_first_match lp.patterns t i pe g1 g2 hskip hit hm1 hm2
  unfold ErrorDetector.analyzeError ErrorListener.analyzeError
  simp only [hdet, htbl]
  simp [hrun]

/-- Witness for C1 (amended): javascript entry 0 matching a `TypeError`
line, instantiated at `i = 0`. -/
theorem c1_first_match_classification_witness :
    (ErrorDetector.analyzeError "TypeError: boom\n    at x.js:1:2").errorType
      = JsStr.orNull (some "TypeError") ∧
    (ErrorDetector.analyzeError "TypeError: boom\n    at x.js:1:2").errorMessage
      = JsStr.orElseF (some "boom") (some "TypeError") ∧
    (ErrorDetector.analyzeError "TypeError: boom\n    at x.js:1:2").isError = true ∧
    (ErrorListener.analyzeError "TypeError: boom\n    at x.js:1:2").map (fun a => a.errorType)
      = some (JsStr.orNull (some "TypeError")) ∧
    (ErrorListener.analyzeError "TypeError: boom\n    at x.js:1:2").map (fun a => a.errorMessage)
      = some (JsStr.orElseF (some "boom") (some "TypeError")) ∧
    (ErrorListener.analyzeError "TypeError: boom\n    at x.js:1:2").map (fun a => a.isError)
      = some true :=
  c1_first_match_classification "javascript" Engine.jsPatterns
    "TypeError: boom\n    at x.js:1:2" 0
    (Engine.jsPatterns.patterns.headD JsRegex.RE.eps)
    (some "TypeError") (some "boom")
    (by decide) (by rfl) (by simp) (by rfl) (by decide) (by decide)

/-- **C2.** Language detection checks javascript, then java, then csharp,
returning the first language any of whose indicator regexes matches, and
`none` when no indicator of any language matches: `detectLanguage` equals
the first-match scan over the ordered `languageChecks` table. -/
theorem c2_detect_language_first_of_ordered (t : String) :
    Engine.detectLanguage t = SpecModel.detectLanguageSpec t := by
  unfold Engine.detectLanguage SpecModel.detectLanguageSpec SpecModel.languageChecks
  simp only [List.findSome?, List.any_cons, List.any_nil, Bool.or_false, Bool.or_assoc]
  split
  · rename_i h1
    simp [h1]
  · rename_i h1
    split
    · rename_i h2
      simp [h1, h2]
    · rename_i h2
      split
      · rename_i h3
        simp [h1, h2, h3]
      · rename_i h3
        simp [h1, h2, h3]

/-- **C3 (counterexample).** At text "TypeError SyntaxError" (javascript,
detector table) the first matching key `TypeError` yields no sub-pattern and
has no default, yet the code returns the `SyntaxError` default explanation
from a later key instead of the `none` the claim prescribes for that case. -/
theorem c3_counterexample :
    ErrorDetector.getLocalExplanation (some "javascript") none "TypeError SyntaxError"
      = some ErrorDetector.jsSyntaxErrorDefault ∧
    SpecModel.scanKnowledgeFirstKey ErrorDetector.javascriptErrors none "TypeError SyntaxError"
      = none := by
  decide

/-- **C3 (amended).** Explanation resolution scans top-level keys in defined
order (a key matches when it is a substring of the raw text or of the
classified error type) and, within a matching key, returns the first
sub-pattern whose condition holds (`"default"` always holds, other keys must
be substrings of the raw text); when a matching key yields nothing (which
entails it has no default entry) the scan continues with later keys, and
`none` is returned only when no key yields an explanation. -/
theorem c3_first_yielding_key (language errorType : Option String) (t : String) :
    ErrorDetector.getLocalExplanation language errorType t
      = SpecModel.detectorResolveAmended language errorType t ∧
    ErrorListener.getLocalExplanation language errorType t
      = SpecModel.listenerResolveAmended language errorType t := by
  constructor
  · cases language with
    | none => rfl
    | some l =>
      simp only [ErrorDetector.getLocalExplanation, SpecModel.detectorResolveAmended]
      cases ErrorDetector.COMMON_ERRORS l with
      | none => rfl
      | some tbl => exact Engine.scanKnowledge_eq_scanKnowledgeCont tbl errorType t
  · cases language with
    | none => rfl
    | some l =>
      simp only [ErrorListener.getLocalExplanation, SpecModel.listenerResolveAmended]
      cases ErrorListener.COMMON_ERRORS l with
      | none => rfl
      | some tbl => exact Engine.scanKnowledge_eq_scanKnowledgeCont tbl errorType t

/-- **C4.** Marker round-trip: the canonical input gives exactly
`what = "a"`, `why = "b"`, `fix = "c"`, `example = "d"`, and the
out-of-order input "WHY: x\nWHAT: y\nFIX: z" still gives `what = "y"`,
`why = "x"`, `fix = "z"` — extraction is marker-driven, not
position-driven. -/
theorem c4_marker_roundtrip :
    AIService.parseResponse "WHAT: a\nWHY: b\nFIX: c\nEXAMPLE: d"
      = { what := some "a", why := some "b", fix := some "c",
          exampleField := some "d", raw := "WHAT: a\nWHY: b\nFIX: c\nEXAMPLE: d" } ∧
    (AIService.parseResponse "WHY: x\nWHAT: y\nFIX: z").what = some "y" ∧
    (AIService.parseResponse "WHY: x\nWHAT: y\nFIX: z").why = some "x" ∧
    (AIService.parseResponse "WHY: x\nWHAT: y\nFIX: z").fix = some "z" := by
  decide

/-- **C5.** The response parser is total (a Lean function) and passes the
input through verbatim in `raw`; when no marker matches and sentence
segmentation finds no sentences (and no code fence exists), every other
field is unset. -/
theorem c5_parse_response_total (s : String) :
    (AIService.parseResponse s).raw = s ∧
    (AIService.whatMatch s = none → AIService.whyMatch s = none →
     AIService.fixMatch s = none → AIService.exampleMatch s = none →
     AIService.sentencesOf s = [] → AIService.codeMatch s = none →
     AIService.parseResponse s =
       { what := none, why := none, fix := none, exampleField := none, raw := s }) := by
  constructor
  · simp only [AIService.parseResponse]
    repeat' split
    all_goals rfl
  · intro h1 h2 h3 h4 h5 h6
    simp [AIService.parseResponse, h1, h2, h3, h4, h5, h6, JsStr.optFalsy]

/-- Witness for C5 at the empty string: no markers, no sentences, all fields
unset and `raw = ""`. -/
theorem c5_parse_response_total_witness :
    AIService.parseResponse "" =
      { what := none, why := none, fix := none, exampleField := none, raw := "" } :=
  (c5_parse_response_total "").2 (by decide) (by decide) (by decide) (by decide) (by decide)
    (by decide)
namespace JsRegex

theorem mtchStep_cls_false (recur : RE → Option Char → List Char → Caps → Cont → Option MSt)
    (f : Char → Bool) (c : Char) (t : List Char) (p : Option Char) (caps : Caps) (k : Cont)
    (h : f c = false) : mtchStep recur (.cls f) p (c :: t) caps k = none := by
  unfold mtchStep
  simp [h]

theorem mtchStep_seq_fail (recur : RE → Option Char → List Char → Caps → Cont → Option MSt)
    (a b : RE) (p : Option Char) (s : List Char) (caps : Caps)
    (h : ∀ k, mtchStep recur a p s caps k = none) :
    ∀ k, mtchStep recur (.seq a b) p s caps k = none := by
  intro k
  unfold mtchStep
  exact h _

theorem mtchStep_alt_fail (recur : RE → Option Char → List Char → Caps → Cont → Option MSt)
    (a b : RE) (p : Option Char) (s : List Char) (caps : Caps)
    (h1 : ∀ k, mtchStep recur a p s caps k = none)
    (h2 : ∀ k, mtchStep recur b p s caps k = none) :
    ∀ k, mtchStep recur (.alt a b) p s caps k = none := by
  intro k
  unfold mtchStep
  rw [h1]
  exact h2 k

theorem winPathRe_dash (recur : RE → Option Char → List Char → Caps → Cont → Option MSt)
    (p : Option Char) (t : List Char) (caps : Caps) (k : Cont) :
    mtchStep recur CLI.winPathRe p ('-' :: t) caps k = none :=
  mtchStep_seq_fail recur _ _ p _ caps
    (fun k2 => mtchStep_cls_false recur _ '-' t p caps k2 (by decide)) k

theorem unixPathRe_dash (recur : RE → Option Char → List Char → Caps → Cont → Option MSt)
    (p : Option Char) (t : List Char) (caps : Caps) (k : Cont) :
    mtchStep recur CLI.unixPathRe p ('-' :: t) caps k = none :=
  mtchStep_seq_fail recur _ _ p _ caps
    (fun k2 => mtchStep_cls_false recur _ '-' t p caps k2 (by decide)) k

theorem secretRe_dash (recur : RE → Option Char → List Char → Caps → Cont → Option MSt)
    (p : Option Char) (t : List Char) (caps : Caps) (k : Cont) :
    mtchStep recur CLI.secretRe p ('-' :: t) caps k = none := by
  refine mtchStep_seq_fail recur _ _ p _ caps ?_ k
  refine mtchStep_alt_fail recur _ _ p _ caps ?_ ?_
  · refine mtchStep_seq_fail recur _ _ p _ caps ?_
    refine mtchStep_seq_fail recur _ _ p _ caps ?_
    intro k2
    exact mtchStep_cls_false recur _ '-' t p caps k2 (by decide)
  · refine mtchStep_alt_fail recur _ _ p _ caps ?_ ?_
    · refine mtchStep_seq_fail recur _ _ p _ caps ?_
      intro k2
      exact mtchStep_cls_false recur _ '-' t p caps k2 (by decide)
    · refine mtchStep_alt_fail recur _ _ p _ caps ?_ ?_
      · refine mtchStep_seq_fail recur _ _ p _ caps ?_
        intro k2
        exact mtchStep_cls_false recur _ '-' t p caps k2 (by decide)
      · refine mtchStep_seq_fail recur _ _ p _ caps ?_
        intro k2
        exact mtchStep_cls_false recur _ '-' t p caps k2 (by decide)

theorem mtch_dash_none (r : RE)
    (hstep : ∀ recur p t caps k, mtchStep recur r p ('-' :: t) caps k = none) :
    ∀ (fuel : Nat) (p : Option Char) (t : List Char) (caps : Caps) (k : Cont),
      mtch fuel r p ('-' :: t) caps k = none := by
  intro fuel p t caps k
  cases fuel with
  | zero => unfold mtch; exact hstep _ p t caps k
  | succ n => unfold mtch; exact hstep _ p t caps k

theorem tryAt_dash_none (r : RE)
    (hstep : ∀ recur p t caps k, mtchStep recur r p ('-' :: t) caps k = none)
    (p : Option Char) (t acc : List Char) :
    tryAt r p ('-' :: t) acc = none := by
  unfold tryAt
  rw [mtch_dash_none r hstep]

/-- `tryAt` uses the accumulator only to report the prefix. -/
theorem tryAt_acc (r : RE) (p : Option Char) (s acc : List Char) :
    tryAt r p s acc
      = (tryAt r p s []).map (fun f => ⟨acc.reverse, f.matched, f.rest, f.caps⟩) := by
  unfold tryAt
  cases mtch (s.length + 1) r p s Caps.empty (fun p2 s2 c2 => some ⟨p2, s2, c2⟩) with
  | none => rfl
  | some st => rfl

theorem tryAt_nil_pre (r : RE) (p : Option Char) (s : List Char) (f : Found)
    (h : tryAt r p s [] = some f) : f.pre = [] := by
  unfold tryAt at h
  cases hm : mtch (s.length + 1) r p s Caps.empty (fun p2 s2 c2 => some ⟨p2, s2, c2⟩) with
  | none => rw [hm] at h; exact absurd h (by simp)
  | some st =>
    rw [hm] at h
    cases h
    rfl

/-- `searchAux` relative to the accumulator: results are those of the
empty-accumulator run with the accumulator prepended to the prefix. -/
theorem searchAux_acc (r : RE) :
    ∀ (s : List Char) (p : Option Char) (acc : List Char),
      searchAux r p s acc
        = (searchAux r p s []).map
            (fun f => ⟨acc.reverse ++ f.pre, f.matched, f.rest, f.caps⟩) := by
  intro s
  induction s with
  | nil =>
    intro p acc
    unfold searchAux
    rw [tryAt_acc]
    cases htry : tryAt r p [] [] with
    | none => rfl
    | some f =>
      have hpre := tryAt_nil_pre r p [] f htry
      simp [hpre]
  | cons c t ih =>
    intro p acc
    unfold searchAux
    rw [tryAt_acc]
    cases htry : tryAt r p (c :: t) [] with
    | some f =>
      have hpre := tryAt_nil_pre r p (c :: t) f htry
      simp [hpre]
    | none =>
      simp only [Option.map_none']
      rw [ih (some c) (c :: acc), ih (some c) [c]]
      cases searchAux r (some c) t [] with
      | none => rfl
      | some f =>
        simp [List.reverse_cons, List.append_assoc]

/-- The one-step equation of `searchAux` on a non-empty input. -/
theorem searchAux_cons (r : RE) (p : Option Char) (c : Char) (t acc : List Char) :
    searchAux r p (c :: t) acc =
      match tryAt r p (c :: t) acc with
      | some f => some f
      | none => searchAux r (some c) t (c :: acc) := rfl

/-- If no sanitizer pattern can start on a character, `searchAux` skips a
run of copies of it. -/
theorem searchAux_skip_dash (r : RE)
    (hfail : ∀ p t acc, tryAt r p ('-' :: t) acc = none) :
    ∀ (n : Nat) (p : Option Char) (acc t : List Char),
      searchAux r p (List.replicate (n + 1) '-' ++ t) acc
        = searchAux r (some '-') t (List.replicate (n + 1) '-' ++ acc) := by
  intro n
  induction n with
  | zero =>
    intro p acc t
    show searchAux r p ('-' :: t) acc = searchAux r (some '-') t ('-' :: acc)
    rw [searchAux_cons, hfail]
  | succ m ih =>
    intro p acc t
    show searchAux r p ('-' :: (List.replicate (m + 1) '-' ++ t)) acc
      = searchAux r (some '-') t (List.replicate (m + 1 + 1) '-' ++ acc)
    rw [searchAux_cons, hfail]
    show searchAux r (some '-') (List.replicate (m + 1) '-' ++ t) ('-' :: acc)
      = searchAux r (some '-') t (List.replicate (m + 1 + 1) '-' ++ acc)
    rw [ih (some '-') ('-' :: acc) t]
    congr 1
    have e2 : List.replicate (m + 1 + 1) '-' = List.replicate (m + 1) '-' ++ ['-'] := by
      rw [List.replicate_succ']
    rw [e2]
    simp [List.append_assoc]

end JsRegex

namespace CLI

open JsRegex JsStr

theorem replaceAllAux_of_search_none (r : RE) (repl s : List Char)
    (h : search r s = none) : ∀ fuel, replaceAllAux fuel r repl s = s := by
  intro fuel
  cases fuel with
  | zero => rfl
  | succ n => unfold replaceAllAux; rw [h]

theorem jsReplaceAll_of_search_none (r : RE) (repl : String) (s : String)
    (h : search r s.data = none) : jsReplaceAll r repl s = s := by
  unfold jsReplaceAll
  rw [replaceAllAux_of_search_none r repl.data s.data h]

theorem jsReplaceAll_of_search_some (r : RE) (repl : String) (s : String) (f : Found)
    (h : search r s.data = some f) (hm : f.matched.isEmpty = false)
    (h2 : search r f.rest = none) :
    jsReplaceAll r repl s = String.mk (f.pre ++ repl.data ++ f.rest) := by
  unfold jsReplaceAll
  unfold replaceAllAux
  rw [h]
  simp only [hm, Bool.false_eq_true, if_false]
  rw [replaceAllAux_of_search_none r repl.data f.rest h2]

/-- Searching past the filler: any sanitizer pattern result on
`fillerL ++ tail` is the result on `tail` with the filler prepended to the
reported prefix. -/
theorem search_filler_append (r : RE)
    (hstep : ∀ recur p t caps k, mtchStep recur r p ('-' :: t) caps k = none)
    (tail : List Char) :
    search r (fillerL ++ tail)
      = (searchAux r (some '-') tail []).map
          (fun f => ⟨fillerL ++ f.pre, f.matched, f.rest, f.caps⟩) := by
  have hskip := searchAux_skip_dash r
    (fun p t acc => tryAt_dash_none r hstep p t acc) 1993 none [] tail
  calc search r (fillerL ++ tail)
      = searchAux r none (List.replicate (1993 + 1) '-' ++ tail) [] := rfl
    _ = searchAux r (some '-') tail (List.replicate (1993 + 1) '-' ++ []) := hskip
    _ = (searchAux r (some '-') tail []).map
          (fun f => ⟨(List.replicate (1993 + 1) '-' ++ []).reverse ++ f.pre,
                     f.matched, f.rest, f.caps⟩) :=
        searchAux_acc r tail (some '-') _
    _ = (searchAux r (some '-') tail []).map
          (fun f => ⟨fillerL ++ f.pre, f.matched, f.rest, f.caps⟩) := by
        have e : (List.replicate (1993 + 1) '-' ++ ([] : List Char)).reverse = fillerL := by
          rw [List.append_nil, List.reverse_replicate]
          rfl
        simp only [e]

theorem search_win_c6 : search winPathRe c6Input.data = none := by
  have h := search_filler_append winPathRe winPathRe_dash ("token:\x27 \x27".data)
  have hnil : searchAux winPathRe (some '-') ("token:\x27 \x27".data) [] = none :=
    Option.isNone_iff_eq_none.mp (by decide)
  show search winPathRe (fillerL ++ "token:\x27 \x27".data) = none
  rw [h, hnil]
  rfl

theorem search_unix_c6 : search unixPathRe c6Input.data = none := by
  have h := search_filler_append unixPathRe unixPathRe_dash ("token:\x27 \x27".data)
  have hnil : searchAux unixPathRe (some '-') ("token:\x27 \x27".data) [] = none :=
    Option.isNone_iff_eq_none.mp (by decide)
  show search unixPathRe (fillerL ++ "token:\x27 \x27".data) = none
  rw [h, hnil]
  rfl

theorem search_secret_c6 : search secretRe c6Input.data = none := by
  have h := search_filler_append secretRe secretRe_dash ("token:\x27 \x27".data)
  have hnil : searchAux secretRe (some '-') ("token:\x27 \x27".data) [] = none :=
    Option.isNone_iff_eq_none.mp (by decide)
  show search secretRe (fillerL ++ "token:\x27 \x27".data) = none
  rw [h, hnil]
  rfl

theorem search_win_c6Once : search winPathRe c6Once.data = none := by
  have h := search_filler_append winPathRe winPathRe_dash ("token:\n... (truncated)".data)
  have hnil : searchAux winPathRe (some '-') ("token:\n... (truncated)".data) [] = none :=
    Option.isNone_iff_eq_none.mp (by decide)
  show search winPathRe (fillerL ++ "token:\n... (truncated)".data) = none
  rw [h, hnil]
  rfl

theorem search_unix_c6Once : search unixPathRe c6Once.data = none := by
  have h := search_filler_append unixPathRe unixPathRe_dash ("token:\n... (truncated)".data)
  have hnil : searchAux unixPathRe (some '-') ("token:\n... (truncated)".data) [] = none :=
    Option.isNone_iff_eq_none.mp (by decide)
  show search unixPathRe (fillerL ++ "token:\n... (truncated)".data) = none
  rw [h, hnil]
  rfl

/-- On the once-truncated text, the secret pattern matches
`token:` + newline + the three marker dots. -/
theorem search_secret_c6Once :
    search secretRe c6Once.data
      = some ⟨fillerL, "token:\n...".data, " (truncated)".data, Caps.empty⟩ := by
  have h := search_filler_append secretRe secretRe_dash ("token:\n... (truncated)".data)
  have hfind : searchAux secretRe (some '-') ("token:\n... (truncated)".data) []
      = some ⟨[], "token:\n...".data, " (truncated)".data, Caps.empty⟩ := rfl
  show search secretRe (fillerL ++ "token:\n... (truncated)".data) = _
  rw [h, hfind]
  simp

theorem search_secret_marker : search secretRe (" (truncated)".data) = none :=
  Option.isNone_iff_eq_none.mp (by decide)

end CLI

namespace CLI

open JsRegex JsStr

theorem substituteAll_c6 : substituteAll c6Input = c6Input := by
  unfold substituteAll
  rw [jsReplaceAll_of_search_none _ _ _ search_win_c6,
      jsReplaceAll_of_search_none _ _ _ search_unix_c6,
      jsReplaceAll_of_search_none _ _ _ search_secret_c6]

theorem substituteAll_c6Once :
    substituteAll c6Once = String.mk (fillerL ++ "[REDACTED] (truncated)".data) := by
  unfold substituteAll
  rw [jsReplaceAll_of_search_none _ _ _ search_win_c6Once,
      jsReplaceAll_of_search_none _ _ _ search_unix_c6Once,
      jsReplaceAll_of_search_some _ _ _ _ search_secret_c6Once (by decide)
        search_secret_marker]
  dsimp only
  have hsmall : "[REDACTED]".data ++ " (truncated)".data
      = "[REDACTED] (truncated)".data := by decide
  rw [List.append_assoc, hsmall]

theorem fillerL_length : fillerL.length = 1994 := by
  show (List.replicate 1994 '-').length = 1994
  rw [List.length_replicate]

theorem fillerL_take : fillerL.take 2000 = fillerL := by
  show (List.replicate 1994 '-').take 2000 = List.replicate 1994 '-'
  rw [List.take_replicate]
  rfl

theorem sanitizeError_c6 : sanitizeError c6Input = c6Once := by
  simp only [sanitizeError]
  rw [substituteAll_c6]
  have hlen : c6Input.length = 2003 := by
    show (fillerL ++ "token:\x27 \x27".data).length = 2003
    rw [List.length_append, fillerL_length]
    decide
  rw [hlen]
  rw [if_pos (show maxErrorLength < 2003 by decide)]
  have htake : c6Input.data.take maxErrorLength = fillerL ++ "token:".data := by
    show (fillerL ++ "token:\x27 \x27".data).take 2000 = fillerL ++ "token:".data
    rw [List.take_append_eq_append_take, fillerL_length, fillerL_take]
    have h2 : "token:\x27 \x27".data.take (2000 - 1994) = "token:".data := by decide
    rw [h2]
  rw [htake]
  show String.mk ((fillerL ++ "token:".data) ++ "\n... (truncated)".data) = c6Once
  have h3 : "token:".data ++ "\n... (truncated)".data
      = "token:\n... (truncated)".data := by decide
  rw [List.append_assoc, h3]
  rfl

theorem sanitizeError_c6Once : sanitizeError c6Once = c6Twice := by
  simp only [sanitizeError]
  rw [substituteAll_c6Once]
  have hlen : (String.mk (fillerL ++ "[REDACTED] (truncated)".data)).length = 2016 := by
    show (fillerL ++ "[REDACTED] (truncated)".data).length = 2016
    rw [List.length_append, fillerL_length]
    decide
  rw [hlen]
  rw [if_pos (show maxErrorLength < 2016 by decide)]
  have htake : (String.mk (fillerL ++ "[REDACTED] (truncated)".data)).data.take maxErrorLength
      = fillerL ++ "[REDAC".data := by
    show (fillerL ++ "[REDACTED] (truncated)".data).take 2000 = fillerL ++ "[REDAC".data
    rw [List.take_append_eq_append_take, fillerL_length, fillerL_take]
    have h2 : "[REDACTED] (truncated)".data.take (2000 - 1994) = "[REDAC".data := by decide
    rw [h2]
  rw [htake]
  show String.mk ((fillerL ++ "[REDAC".data) ++ "\n... (truncated)".data) = c6Twice
  have h3 : "[REDAC".data ++ "\n... (truncated)".data
      = "[REDAC\n... (truncated)".data := by decide
  rw [List.append_assoc, h3]
  rfl

end CLI

/-- **C6 (counterexample).** Redaction is not idempotent: on `c6Input` the
first pass only truncates (no substitution applies), but the appended
truncation marker completes a secret-pattern match with the dangling
`token:` key, so the second pass substitutes `[REDACTED]` and truncates
again, producing a different string. -/
theorem c6_counterexample :
    CLI.sanitizeError (CLI.sanitizeError c6Input) ≠ CLI.sanitizeError c6Input := by
  rw [CLI.sanitizeError_c6, CLI.sanitizeError_c6Once]
  intro h
  have h2 : fillerL ++ "[REDAC\n... (truncated)".data
      = fillerL ++ "token:\n... (truncated)".data := congrArg String.data h
  have h3 := List.append_cancel_left h2
  exact absurd h3 (by decide)

/-- **C6 (amended).** Redaction is idempotent on every input on which the
substitution pass is idempotent and whose substituted form fits within the
truncation limit: then truncation never fires and the second pass repeats
the first.  (The counterexample shows the unrestricted claim fails exactly
when truncation interacts with the secret pattern.) -/
theorem c6_redact_idempotent_amended (x : String)
    (hsub : CLI.substituteAll (CLI.substituteAll x) = CLI.substituteAll x)
    (hlen : (CLI.substituteAll x).length ≤ CLI.maxErrorLength) :
    CLI.sanitizeError (CLI.sanitizeError x) = CLI.sanitizeError x := by
  have h1 : CLI.sanitizeError x = CLI.substituteAll x := by
    simp only [CLI.sanitizeError]
    rw [if_neg (not_lt.mpr hlen)]
  rw [h1]
  simp only [CLI.sanitizeError]
  rw [hsub]
  rw [if_neg (not_lt.mpr hlen)]

/-- Witness for C6 (amended) at a short secret-bearing input. -/
theorem c6_redact_idempotent_amended_witness :
    CLI.sanitizeError (CLI.sanitizeError "token:abc") = CLI.sanitizeError "token:abc" :=
  c6_redact_idempotent_amended "token:abc" (by decide) (by decide)

/-- **C7.** No extraction without a detected language: whenever the shared
language detector returns `none`, both analyzers leave `errorType`,
`errorMessage`, `file`, `line` and `column` unset. -/
theorem c7_no_extraction_without_language (t : String)
    (h : Engine.detectLanguage t = none) :
    (ErrorDetector.analyzeError t).errorType = none ∧
    (ErrorDetector.analyzeError t).errorMessage = none ∧
    (ErrorDetector.analyzeError t).file = none ∧
    (ErrorDetector.analyzeError t).line = none ∧
    (ErrorDetector.analyzeError t).column = none ∧
    ∀ a, ErrorListener.analyzeError t = some a →
      a.errorType = none ∧ a.errorMessage = none ∧ a.file = none ∧
      a.line = none ∧ a.column = none := by
  have hd : ErrorDetector.analyzeError t =
      { isError := Engine.detectError t, language := some "unknown",
        errorType := none, errorMessage := none, file := none, line := none,
        column := none, localExplanation := none } := by
    unfold ErrorDetector.analyzeError
    rw [h]
  have hl : ErrorListener.analyzeError t =
      some { isError := Engine.detectError t, language := some "unknown",
             errorType := none, errorMessage := none, file := none, line := none,
             column := none, localExplanation := none } := by
    unfold ErrorListener.analyzeError
    rw [h]
  rw [hd, hl]
  refine ⟨rfl, rfl, rfl, rfl, rfl, ?_⟩
  intro a ha
  cases ha
  exact ⟨rfl, rfl, rfl, rfl, rfl⟩

/-- Witness for C7 at "hi", where no indicator matches. -/
theorem c7_no_extraction_without_language_witness :
    Engine.detectLanguage "hi" = none ∧
    (ErrorDetector.analyzeError "hi").errorType = none ∧
    (ErrorDetector.analyzeError "hi").file = none :=
  ⟨by decide, (c7_no_extraction_without_language "hi" (by decide)).1,
    (c7_no_extraction_without_language "hi" (by decide)).2.2.1⟩

set_option maxRecDepth 40000 in
/-- **C8 (divergence).** At the scenario input the detector detects
javascript, classifies the `TypeError`, parses `line = 12`, `column = 5`
and resolves the knowledge entry `TypeError → "Cannot read propert"` as the
claim says — but the greedy `.*` of the file/line pattern
`at\s+(.*):(\d+):(\d+)` swallows the filename, so `file` is the empty
string and does not contain "app.js". -/
theorem c8_scenario_divergence :
    ErrorDetector.analyzeError c8Input =
      { isError := true, language := some "javascript",
        errorType := some "TypeError",
        errorMessage := some "Cannot read properties of undefined (reading \x27map\x27)",
        file := some "", line := some 12, column := some 5,
        localExplanation := some ErrorDetector.jsTypeErrorCannotRead } ∧
    JsStr.jsIncludes "" "app.js" = false := by
  decide

/-- **C9 (counterexample).** "hello" satisfies the claim's premises (no
language indicator, no generic error indicator) and `analyzeError` indeed
reports `isError = false` — but `language` is the sentinel
`some "unknown"`, never `none`. -/
theorem c9_counterexample :
    Engine.detectLanguage "hello" = none ∧
    Engine.detectError "hello" = false ∧
    (ErrorDetector.analyzeError "hello").isError = false ∧
    (ErrorDetector.analyzeError "hello").language = some "unknown" ∧
    (ErrorDetector.analyzeError "hello").language ≠ none := by
  decide

/-- **C9 (amended).** For every text with no language indicators and no
generic error indicator, both analyzers return `isError = false` with
`language = some "unknown"` (the source's sentinel for a failed detection)
and every other field unset. -/
theorem c9_no_error_scenario_amended (t : String)
    (h1 : Engine.detectLanguage t = none)
    (h2 : Engine.detectError t = false) :
    (ErrorDetector.analyzeError t).isError = false ∧
    (ErrorDetector.analyzeError t).language = some "unknown" ∧
    ErrorListener.analyzeError t
      = some { isError := false, language := some "unknown", errorType := none,
               errorMessage := none, file := none, line := none, column := none,
               localExplanation := none } := by
  have hd : ErrorDetector.analyzeError t =
      { isError := false, language := some "unknown",
        errorType := none, errorMessage := none, file := none, line := none,
        column := none, localExplanation := none } := by
    unfold ErrorDetector.analyzeError
    rw [h1, h2]
  have hl : ErrorListener.analyzeError t =
      some { isError := false, language := some "unknown",
             errorType := none, errorMessage := none, file := none, line := none,
             column := none, localExplanation := none } := by
    unfold ErrorListener.analyzeError
    rw [h1, h2]
  rw [hd, hl]
  exact ⟨rfl, rfl, rfl⟩

/-- Witness for C9 (amended) at "hello". -/
theorem c9_no_error_scenario_amended_witness :
    Engine.detectLanguage "hello" = none ∧ Engine.detectError "hello" = false ∧
    (ErrorDetector.analyzeError "hello").isError = false :=
  ⟨by decide, by decide,
    (c9_no_error_scenario_amended "hello" (by decide) (by decide)).1⟩

set_option maxRecDepth 40000 in
/-- **C10 (counterexample).** At the C8 scenario input the detector resolves
a local explanation through its sub-pattern key "Cannot read propert", while
the listener's key "Cannot read property" (final `y`) is not a substring of
"...properties..." and its table has no `default` under `TypeError` — the
two analyzers return different explanations. -/
theorem c10_counterexample :
    (ErrorDetector.analyzeError c8Input).localExplanation
      = some ErrorDetector.jsTypeErrorCannotRead ∧
    (ErrorListener.analyzeError c8Input).map
        (fun a => a.localExplanation) = some none := by
  decide

/-- **C10 (amended).** The two analyzers agree on detection, classification
and extraction up to the representation of `line`/`column` (strings in the
listener, parsed numbers in the detector): the listener always returns an
analysis, with the same `isError`, `language`, `errorType`, `errorMessage`
and `file` as the detector, and the detector's `line`/`column` are the
parsed forms of the listener's.  (`localExplanation` is excluded: the two
knowledge tables genuinely differ, per the counterexample.) -/
theorem c10_engine_equivalence_amended (s : String) :
    ∃ a, ErrorListener.analyzeError s = some a ∧
      (ErrorDetector.analyzeError s).isError = a.isError ∧
      (ErrorDetector.analyzeError s).language = a.language ∧
      (ErrorDetector.analyzeError s).errorType = a.errorType ∧
      (ErrorDetector.analyzeError s).errorMessage = a.errorMessage ∧
      (ErrorDetector.analyzeError s).file = a.file ∧
      (ErrorDetector.analyzeError s).line = a.line.bind JsStr.parseIntDec ∧
      (ErrorDetector.analyzeError s).column = a.column.bind JsStr.parseIntDec := by
  cases hdl : Engine.detectLanguage s with
  | none =>
    simp only [ErrorDetector.analyzeError, ErrorListener.analyzeError, hdl]
    exact ⟨_, rfl, rfl, rfl, rfl, rfl, rfl, rfl, rfl⟩
  | some lang =>
    have hmem := Engine.detectLanguage_mem s lang hdl
    have main : ∀ lp, Engine.ERROR_PATTERNS lang = some lp →
        ∃ a, ErrorListener.analyzeError s = some a ∧
          (ErrorDetector.analyzeError s).isError = a.isError ∧
          (ErrorDetector.analyzeError s).language = a.language ∧
          (ErrorDetector.analyzeError s).errorType = a.errorType ∧
          (ErrorDetector.analyzeError s).errorMessage = a.errorMessage ∧
          (ErrorDetector.analyzeError s).file = a.file ∧
          (ErrorDetector.analyzeError s).line = a.line.bind JsStr.parseIntDec ∧
          (ErrorDetector.analyzeError s).column = a.column.bind JsStr.parseIntDec := by
      intro lp hep
      simp only [ErrorDetector.analyzeError, ErrorListener.analyzeError, hdl, hep]
      refine ⟨_, rfl, rfl, rfl, rfl, rfl, rfl, ?_, ?_⟩
      · cases hfm : JsRegex.search lp.fileLinePattern s.data with
        | none => simp only [hfm]; rfl
        | some m => simp only [hfm]; rfl
      · cases hfm : JsRegex.search lp.fileLinePattern s.data with
        | none => simp only [hfm]; rfl
        | some m =>
          simp only [hfm, Option.bind_some]
          cases h3 : m.caps 3 with
          | none => simp [h3, JsStr.orNull]
          | some l =>
            cases hs : (String.mk l).isEmpty with
            | true => simp [h3, hs, JsStr.orNull]
            | false => simp [h3, hs, JsStr.orNull]
    rcases hmem with h | h | h <;> subst h
    · exact main Engine.jsPatterns rfl
    · exact main Engine.javaPatterns rfl
    · exact main Engine.csharpPatterns rfl
